import Mathlib

/-!
Shallow embedding of the scrapy-webdriver access-coordination core:
`scrapy_webdriver/middlewares.py` (WebdriverSpiderMiddleware) and
`scrapy_webdriver/download.py` (WebdriverDownloadHandler).

The `WebdriverManager` (scrapy_webdriver/manager.py) and the request/response
classes (scrapy_webdriver/http.py) are imported by both source files but are
not among the provided sources; the manager's state machine is modelled from
the spec (section 4.1) where needed, marked `Modelled from the spec:` below.

Conventions of the embedding:
  * request identity is the URL string, as in `self.manager.release(response.request.url)`;
  * the `WebdriverRequest.WAITING` sentinel is the `AcquireResult.waiting`
    constructor, a real admitted request is `AcquireResult.admitted r`;
  * Python generators that thread mutable manager state are functions from
    state to (result, state); a raised exception is an `Except.error` result
    paired with the state at the raise point (external mutations made before
    the raise persist, exactly as in Python);
  * the dispatcher's side effects (logging, signal.alarm, SIGTERM, attribute
    writes, manager calls) are recorded as an event trace.
-/

namespace Scrapy

/-- Scrapy log levels used by the sources (`scrapy.log`). -/
inductive Level where
  | debug
  | info
  | warning
  | error
deriving DecidableEq, Repr

/-- A webdriver-bound request (`WebdriverRequest` / `WebdriverActionRequest`
from scrapy_webdriver/http.py). `action = true` models an instance of the
`WebdriverActionRequest` subclass; `dontFilter` models the `dont_filter`
request flag set by `.replace(dont_filter=True)`; `payload` stands for the
rest of the request data (callback, meta, ...), so two requests with the same
identity can still differ. -/
structure WRequest where
  url : String
  action : Bool
  dontFilter : Bool
  payload : Nat
deriving DecidableEq, Repr

/-- An element of a spider result / start-requests batch: either an ordinary
item or non-webdriver request (`other`, opaque to this subsystem) or a
webdriver-bound request. -/
inductive Item where
  | other (tag : Nat)
  | wreq (r : WRequest)
deriving DecidableEq, Repr

/-- What `WebdriverManager.acquire` / `acquire_next` hand back: the admitted
request itself, or the `WebdriverRequest.WAITING` sentinel. -/
inductive AcquireResult where
  | admitted (r : WRequest)
  | waiting
deriving DecidableEq, Repr

/-- Modelled from the spec: the AccessManager state (`WebdriverManager` in
scrapy_webdriver/manager.py, which is not among the provided sources).
`heldBy` is the lock (`held = heldBy.isSome`, `held_by = heldBy`); the wait
queue is kept as an ordered association list identity -> request: its key
sequence is the FIFO admission order and key lookup is the identity -> request
mapping of the spec's data model (an identity occurs at most once). -/
structure ManagerState where
  heldBy : Option String
  waitQueue : List (String × WRequest)
deriving DecidableEq, Repr

/-- Key lookup in the wait queue (the identity -> request mapping). -/
def lookupEntry : List (String × WRequest) → String → Option WRequest
  | [], _ => none
  | (k, v) :: rest, key => if k = key then some v else lookupEntry rest key

/-- Replace the request stored under `key`, keeping its queue position. -/
def updateEntry : List (String × WRequest) → String → WRequest → List (String × WRequest)
  | [], _, _ => []
  | (k, v) :: rest, key, r =>
      if k = key then (k, r) :: rest else (k, v) :: updateEntry rest key r

/-- Modelled from the spec: `acquire(request)`. Lock free: take it
(`held_by := identity`) and return the request unchanged. Lock held and the
identity not yet queued: append to the wait queue, return WAITING. Lock held
and the identity already queued: update the stored value in place (position
unchanged), return WAITING again. -/
def ManagerState.acquire (s : ManagerState) (r : WRequest) :
    AcquireResult × ManagerState :=
  match s.heldBy with
  | none => (.admitted r, { s with heldBy := some r.url })
  | some _ =>
      if (lookupEntry s.waitQueue r.url).isSome then
        (.waiting, { s with waitQueue := updateEntry s.waitQueue r.url r })
      else
        (.waiting, { s with waitQueue := s.waitQueue ++ [(r.url, r)] })

/-- Modelled from the spec: `release(identity)` clears the lock only when
`held_by == identity`; otherwise it is a logged no-op (idempotent release). -/
def ManagerState.release (s : ManagerState) (id : String) : ManagerState :=
  if s.heldBy = some id then { s with heldBy := none } else s

/-- Modelled from the spec: `acquire_next()` pops the oldest wait-queue entry
(FIFO by original admission order) and calls `acquire` on it; on an empty
queue it returns WAITING with the state untouched (lock left free). -/
def ManagerState.acquire_next (s : ManagerState) : AcquireResult × ManagerState :=
  match s.waitQueue with
  | [] => (.waiting, s)
  | (_, r) :: rest => ManagerState.acquire { s with waitQueue := rest } r

/-- The exception raised out of the router: `IgnoreRequest` carrying the
message "WebdriverRequests from start_requests can't be in-page."
(middlewares.py line 51; the message text is immaterial to the model). -/
inductive PyError where
  | ignoreRequest
deriving DecidableEq, Repr

/-- `WebdriverSpiderMiddleware._process_requests(items_or_requests, start)`
(middlewares.py lines 49-59) as a state-threading function over the shared
manager. Items are handled in order; a non-webdriver item is yielded
unchanged; a webdriver request that is an action request while `start` raises
`IgnoreRequest` (state as of the raise point); otherwise `acquire` is called
and the item is dropped when the result is the WAITING sentinel, else the
value returned by `acquire` is yielded. -/
def processRequests (s : Scrapy.ManagerState) (start : Bool) :
    List Scrapy.Item → Except Scrapy.PyError (List Scrapy.Item) × Scrapy.ManagerState
  | [] => (.ok [], s)
  | .other t :: rest =>
      let (res, s') := processRequests s start rest
      (res.map (fun out => .other t :: out), s')
  | .wreq r :: rest =>
      if start && r.action then (.error .ignoreRequest, s)
      else
        match s.acquire r with
        | (.waiting, s') => processRequests s' start rest
        | (.admitted r', s') =>
            let (res, s'') := processRequests s' start rest
            (res.map (fun out => .wreq r' :: out), s'')

/-- `WebdriverSpiderMiddleware.process_start_requests` (middlewares.py lines
20-29): delegates to `_process_requests` with `start=True`. -/
def process_start_requests (s : Scrapy.ManagerState) (startRequests : List Scrapy.Item) :
    Except Scrapy.PyError (List Scrapy.Item) × Scrapy.ManagerState :=
  processRequests s true startRequests

/-- `WebdriverSpiderMiddleware.process_spider_output(response, result, spider)`
(middlewares.py lines 31-47). `respReq` is `response.request`, the request
that produced this output. The admission-filtered result is yielded first
(start=False, so the action rejection never fires); then, if the originating
request is a `WebdriverRequest`, `release(response.request.url)` is called,
then `acquire_next()`, and a non-WAITING result is re-emitted as
`next_request.replace(dont_filter=True)`. -/
def process_spider_output (s : Scrapy.ManagerState) (respReq : Scrapy.Item)
    (result : List Scrapy.Item) :
    Except Scrapy.PyError (List Scrapy.Item) × Scrapy.ManagerState :=
  match processRequests s false result with
  | (.error e, s') => (.error e, s')
  | (.ok out, s') =>
      match respReq with
      | .wreq r =>
          let s1 := s'.release r.url
          match s1.acquire_next with
          | (.admitted nxt, s2) =>
              (.ok (out ++ [.wreq { nxt with dontFilter := true }]), s2)
          | (.waiting, s2) => (.ok out, s2)
      | .other _ => (.ok out, s')

/-- `WebdriverSpiderMiddleware.process_spider_exception(response, exception,
spider)` (middlewares.py lines 61-72). When the failing response originated
from a `WebdriverRequest`: `release(response.request.url)`, then
`acquire_next()`, and the literal single-element list `[next_request]` is
returned (its element is whatever `acquire_next` produced, request or WAITING
sentinel). Otherwise the hook returns None (`none` here). -/
def process_spider_exception (s : Scrapy.ManagerState) (respReq : Scrapy.Item) :
    Option (List Scrapy.AcquireResult) × Scrapy.ManagerState :=
  match respReq with
  | .wreq r =>
      let s1 := s.release r.url
      (some [(s1.acquire_next).1], (s1.acquire_next).2)
  | .other _ => (none, s)

/-- An exception value. Python exceptions are mutable objects; download.py
line 94 assigns `exception.page_source = '...'` before wrapping the exception
in the failure response, modelled by updating the `page_source` field. -/
structure Exc where
  msg : String
  page_source : Option String
deriving DecidableEq, Repr

/-- The placeholder empty-document body assigned to a failing exception
(download.py line 94). -/
def blankBody : String := "<html><head></head><body></body></html>"

/-- Side effects performed by the download handler, in program order. -/
inductive Event where
  /-- `spider.log(..., level=lvl)` / `log.msg`. -/
  | log (lvl : Level)
  /-- `signal.alarm(n)`; `n = 0` disarms the countdown. -/
  | setAlarm (n : Nat)
  /-- `self._manager.acquire(request)` (return value never inspected here). -/
  | acquireCall (url : String)
  /-- `self._manager.webdriver.get(request.url)`, the blocking fetch. -/
  | webdriverGet (url : String)
  /-- Bare `self._manager.webdriver` property access (lazy (re)creation). -/
  | touchWebdriver
  /-- `self._manager.release(...)`; `none` means called with no identity. -/
  | releaseCall (id : Option String)
  /-- `self._manager.webdriver.service.process.send_signal(signal.SIGTERM)`. -/
  | sigtermDriverProcess
  /-- `self._manager._webdriver = None` (invalidate the cached handle). -/
  | setWebdriverNone
deriving DecidableEq, Repr

/-- Outcome of the blocking `webdriver.get` call: normal return, or any
raised exception (including one induced by the SIGALRM abort). -/
inductive GetOutcome where
  | success
  | failure (e : Exc)
deriving DecidableEq, Repr

/-- `WebdriverResponse(url, webdriver_or_exception)`: carries the target URL
and either the webdriver reference (success) or the captured exception
(failure). -/
inductive WResponse where
  | success (url : String)
  | failure (url : String) (e : Exc)
deriving DecidableEq, Repr

/-- The SIGALRM callback `alarm_handler` bound in `download_request`
(download.py lines 38-58), as its event trace: SIGTERM the webdriver driver
process, set `self._manager._webdriver = None`, `self._manager.release()`
with no argument, and `spider.log(msg, level=log.INFO)` for the hang
message. -/
def alarm_handler : List Event :=
  [Event.sigtermDriverProcess, Event.setWebdriverNone,
   Event.releaseCall none, Event.log Level.info]

/-- `WebdriverDownloadHandler._download_request(request, spider)`
(download.py lines 69-119), the blocking path for an enabled, webdriver-bound,
non-action request, parameterised by the hang timeout `ht` (`0` models a
falsy WEBDRIVER_HANG_TIMEOUT), the manager state `ms` (the acquire result is
computed and discarded, as in the source) and the outcome of `webdriver.get`.
Returns the response together with the event trace: debug log; arm the alarm
when `ht` is truthy; `acquire`; `get`; then on either outcome the two debug
logs and `signal.alarm(0)` when `ht` is truthy; on failure additionally the
error log, the bare `self._manager.webdriver` touch and one more debug log;
and in the `finally` clause `self._manager.release()` with no argument. -/
def _download_request (ht : Nat) (ms : ManagerState) (r : WRequest)
    (outcome : GetOutcome) : WResponse × List Event :=
  let _ := ms.acquire r
  let arm : List Event := if ht ≠ 0 then [Event.setAlarm ht] else []
  let disarm : List Event :=
    if ht ≠ 0 then [Event.log Level.debug, Event.log Level.debug, Event.setAlarm 0]
    else []
  let pre : List Event :=
    Event.log Level.debug :: arm ++ [Event.acquireCall r.url, Event.webdriverGet r.url]
  match outcome with
  | .success =>
      (.success r.url, pre ++ disarm ++ [Event.releaseCall none])
  | .failure e =>
      (.failure r.url { e with page_source := some blankBody },
       pre ++ disarm ++
         [Event.log Level.error, Event.touchWebdriver, Event.log Level.debug,
          Event.releaseCall none])

/-- Relevant settings of `WebdriverDownloadHandler.__init__` (download.py
lines 21-26): `browser` is WEBDRIVER_BROWSER (`self._enabled` is
`browser.isSome`); `hangTimeout` is WEBDRIVER_HANG_TIMEOUT with `0` for a
falsy (absent/0/None) value. -/
structure Settings where
  browser : Option String
  hangTimeout : Nat
deriving DecidableEq, Repr

/-- Which download path `download_request` selects. -/
inductive Route where
  /-- `self._fallback_handler.download_request(request, spider)`, handed the
  request unchanged. -/
  | fallback (req : Item)
  /-- `self._download_request` (the blocking webdriver path). -/
  | webdriverSimple (r : WRequest)
  /-- `raise NotImplementedError()` for a `WebdriverActionRequest`. -/
  | notImplemented (r : WRequest)
deriving DecidableEq, Repr

/-- `WebdriverDownloadHandler.download_request(request, spider)` (download.py
lines 31-67): route picked for the request, paired with whether the SIGALRM
`alarm_handler` was bound (`signal.signal`, done exactly when the handler is
enabled, the request is webdriver-bound and the hang timeout is truthy —
before the action-request check). -/
def download_request (st : Settings) (req : Item) : Route × Bool :=
  match req with
  | .wreq r =>
      if st.browser.isSome then
        ((if r.action then Route.notImplemented r else Route.webdriverSimple r),
         st.hangTimeout ≠ 0)
      else (Route.fallback (.wreq r), false)
  | .other t => (Route.fallback (.other t), false)

/-- True on ordinary (non-webdriver) items. -/
def Item.isOther : Item → Bool
  | .other _ => true
  | .wreq _ => false

/-- Follows the spec's words (section 4.3, start-of-crawl admission): for
each resource-bound item call `acquire`; drop the ones that come back as
WAITING; forward admitted ones; forward non-resource items unchanged,
preserving relative order. Stated for comparison with `processRequests`. -/
def specAdmission (s : ManagerState) : List Item → List Item × ManagerState
  | [] => ([], s)
  | .other t :: rest =>
      let (out, s') := specAdmission s rest
      (.other t :: out, s')
  | .wreq r :: rest =>
      match s.acquire r with
      | (.waiting, s') => specAdmission s' rest
      | (.admitted r', s') =>
          let (out, s'') := specAdmission s' rest
          (.wreq r' :: out, s'')

theorem updateEntry_map_fst (l : List (String × WRequest)) (k : String) (r : WRequest) :
    (updateEntry l k r).map Prod.fst = l.map Prod.fst := by
  induction l with
  | nil => rfl
  | cons hd tl ih =>
      obtain ⟨a, b⟩ := hd
      by_cases hk : a = k <;> simp [updateEntry, hk, ih]

theorem lookupEntry_updateEntry_self (l : List (String × WRequest)) (k : String)
    (r : WRequest) (h : (lookupEntry l k).isSome = true) :
    lookupEntry (updateEntry l k r) k = some r := by
  induction l with
  | nil => simp [lookupEntry] at h
  | cons hd tl ih =>
      obtain ⟨a, b⟩ := hd
      by_cases hk : a = k
      · simp [updateEntry, lookupEntry, hk]
      · simp [updateEntry, lookupEntry, hk] at h ⊢
        exact ih h

/- Concrete values used by the closed witness theorems. -/

def reqA : WRequest := { url := "a", action := false, dontFilter := false, payload := 0 }

def reqB : WRequest := { url := "b", action := false, dontFilter := false, payload := 1 }

def reqA2 : WRequest := { url := "a", action := false, dontFilter := false, payload := 2 }

def actionReq : WRequest := { url := "act", action := true, dontFilter := false, payload := 0 }

def mgrFree : ManagerState := { heldBy := none, waitQueue := [] }

def mgrHeld : ManagerState := { heldBy := some "x", waitQueue := [("a", reqA), ("b", reqB)] }

def batchC4 : List Item := [Item.other 5, Item.wreq reqA, Item.wreq reqB]

/-- C6: waiting requests are admitted in strict FIFO order of first admission
attempt — `acquire_next` pops the oldest queued entry and calls `acquire` on
it; re-enqueueing an already-queued identity returns WAITING again, keeps the
queue's identity order unchanged and updates the stored request; with an
empty queue `acquire_next` returns WAITING leaving the state (hence a free
lock) untouched. -/
theorem c6_queue_fifo :
    (∀ (s : ManagerState) (id : String) (r : WRequest)
        (rest : List (String × WRequest)), s.waitQueue = (id, r) :: rest →
        s.acquire_next = ManagerState.acquire { s with waitQueue := rest } r) ∧
    (∀ (s : ManagerState) (r' : WRequest), s.heldBy.isSome = true →
        (lookupEntry s.waitQueue r'.url).isSome = true →
        (s.acquire r').1 = AcquireResult.waiting ∧
        (s.acquire r').2.waitQueue.map Prod.fst = s.waitQueue.map Prod.fst ∧
        lookupEntry (s.acquire r').2.waitQueue r'.url = some r') ∧
    (∀ s : ManagerState, s.waitQueue = [] →
        s.acquire_next = (AcquireResult.waiting, s)) := by
  refine ⟨?_, ?_, ?_⟩
  · intro s id r rest h
    simp [ManagerState.acquire_next, h]
  · intro s r' h1 h2
    obtain ⟨x, hx⟩ := Option.isSome_iff_exists.mp h1
    refine ⟨?_, ?_, ?_⟩ <;>
      simp [ManagerState.acquire, hx, h2, updateEntry_map_fst,
        lookupEntry_updateEntry_self _ _ _ h2]
  · intro s h
    simp [ManagerState.acquire_next, h]

/-- Witness for C6 at concrete states: popping from a two-element queue,
re-enqueueing identity "a" while the lock is held, and an empty queue. -/
theorem c6_queue_fifo_witness :
    (mgrHeld.acquire_next = ManagerState.acquire { mgrHeld with waitQueue := [("b", reqB)] } reqA) ∧
    ((mgrHeld.acquire reqA2).1 = AcquireResult.waiting ∧
      (mgrHeld.acquire reqA2).2.waitQueue.map Prod.fst = mgrHeld.waitQueue.map Prod.fst ∧
      lookupEntry (mgrHeld.acquire reqA2).2.waitQueue reqA2.url = some reqA2) ∧
    (mgrFree.acquire_next = (AcquireResult.waiting, mgrFree)) :=
  ⟨c6_queue_fifo.1 mgrHeld "a" reqA [("b", reqB)] (by decide),
   c6_queue_fifo.2.1 mgrHeld reqA2 (by decide) (by decide),
   c6_queue_fifo.2.2 mgrFree (by decide)⟩

/-- C7: an action-kind webdriver request among start-of-crawl items raises
`IgnoreRequest` before `acquire` is ever called on it: the manager state
returned at the raise point is exactly the incoming state. -/
theorem c7_action_start_rejected (s : ManagerState) (r : WRequest)
    (rest : List Item) (h : r.action = true) :
    processRequests s true (Item.wreq r :: rest) =
      (Except.error PyError.ignoreRequest, s) := by
  simp [processRequests, h]

/-- Witness for C7: a concrete action request heading a start batch. -/
theorem c7_action_start_rejected_witness :
    processRequests mgrFree true [Item.wreq actionReq] =
      (Except.error PyError.ignoreRequest, mgrFree) :=
  c7_action_start_rejected mgrFree actionReq [] (by decide)

theorem specAdmission_preserves_other (items : List Item) : ∀ s : ManagerState,
    ((specAdmission s items).1).filter Item.isOther = items.filter Item.isOther := by
  induction items with
  | nil => intro s; rfl
  | cons hd tl ih =>
      intro s
      cases hd with
      | other t =>
          cases hsa : specAdmission s tl with
          | mk out s2 =>
              have h1 := ih s
              rw [hsa] at h1
              simp [specAdmission, hsa, Item.isOther, h1]
      | wreq r =>
          cases hacq : s.acquire r with
          | mk res s' =>
              cases res with
              | waiting => simp [specAdmission, hacq, Item.isOther, ih s']
              | admitted r' =>
                  cases hsa : specAdmission s' tl with
                  | mk out s2 =>
                      have h1 := ih s'
                      rw [hsa] at h1
                      simp [specAdmission, hacq, hsa, Item.isOther, h1]

theorem processRequests_true_eq_specAdmission (items : List Item) :
    ∀ s : ManagerState, (∀ r, Item.wreq r ∈ items → r.action = false) →
    processRequests s true items =
      (Except.ok (specAdmission s items).1, (specAdmission s items).2) := by
  induction items with
  | nil => intro s _; rfl
  | cons hd tl ih =>
      intro s h
      cases hd with
      | other t =>
          have htl : ∀ r, Item.wreq r ∈ tl → r.action = false :=
            fun r hr => h r (by simp [hr])
          cases hsa : specAdmission s tl with
          | mk out s2 =>
              have h1 := ih s htl
              rw [hsa] at h1
              simp [processRequests, specAdmission, hsa, h1, Except.map]
      | wreq r =>
          have hr : r.action = false := h r (by simp)
          have htl : ∀ q, Item.wreq q ∈ tl → q.action = false :=
            fun q hq => h q (by simp [hq])
          cases hacq : s.acquire r with
          | mk res s' =>
              cases res with
              | waiting =>
                  simp [processRequests, specAdmission, hr, hacq, ih s' htl]
              | admitted r' =>
                  cases hsa : specAdmission s' tl with
                  | mk out s2 =>
                      have h1 := ih s' htl
                      rw [hsa] at h1
                      simp [processRequests, specAdmission, hr, hacq, hsa, h1,
                        Except.map]

/-- C4 as stated is false: on the start batch `[action request, plain item]`
the router raises `IgnoreRequest` instead of calling `acquire` on the
webdriver request and forwarding the plain item — the claim would predict the
output `[admitted action request, plain item]`. -/
theorem c4_counterexample :
    (processRequests mgrFree true [Item.wreq actionReq, Item.other 0]).1 =
      Except.error PyError.ignoreRequest ∧
    (processRequests mgrFree true [Item.wreq actionReq, Item.other 0]).1 ≠
      Except.ok [Item.wreq actionReq, Item.other 0] := by
  have h1 : (processRequests mgrFree true [Item.wreq actionReq, Item.other 0]).1 =
      Except.error PyError.ignoreRequest := rfl
  exact ⟨h1, by rw [h1]; intro h; exact Except.noConfusion h⟩

/-- C4 (amended: restricted to start batches with no action-kind webdriver
requests, which otherwise raise `IgnoreRequest`): the router forwards every
non-resource-bound item unchanged in its original relative order, calls
`acquire` on each webdriver request and drops exactly those that come back
WAITING, forwarding admitted ones unchanged (the modelled `acquire` returns
an admitted request unchanged). -/
theorem c4_admission (s : ManagerState) (items : List Item)
    (h : ∀ r, Item.wreq r ∈ items → r.action = false) :
    processRequests s true items =
      (Except.ok (specAdmission s items).1, (specAdmission s items).2) ∧
    ((specAdmission s items).1).filter Item.isOther = items.filter Item.isOther ∧
    (∀ (t : ManagerState) (q q' : WRequest),
      (t.acquire q).1 = AcquireResult.admitted q' → q' = q) := by
  refine ⟨processRequests_true_eq_specAdmission items s h,
    specAdmission_preserves_other items s, ?_⟩
  intro t q q' hq
  cases ht : t.heldBy with
  | none => simp [ManagerState.acquire, ht] at hq; exact hq.symm
  | some x =>
      by_cases hl : (lookupEntry t.waitQueue q.url).isSome = true <;>
        simp [ManagerState.acquire, ht, hl] at hq

/-- Witness for C4 at a concrete start batch with a free manager: the plain
item and the admitted request "a" are forwarded, "b" is dropped as WAITING. -/
theorem c4_admission_witness :
    (processRequests mgrFree true batchC4 =
      (Except.ok (specAdmission mgrFree batchC4).1, (specAdmission mgrFree batchC4).2)) ∧
    ((specAdmission mgrFree batchC4).1).filter Item.isOther =
      batchC4.filter Item.isOther ∧
    (∀ (t : ManagerState) (q q' : WRequest),
      (t.acquire q).1 = AcquireResult.admitted q' → q' = q) :=
  c4_admission mgrFree batchC4 (by
    intro r hr
    simp [batchC4] at hr
    rcases hr with rfl | rfl <;> rfl)

def mgrHeldA : ManagerState := { heldBy := some "a", waitQueue := [("b", reqB)] }

def excBoom : Exc := { msg := "boom", page_source := none }

/-- C3: for a spider-output batch whose originating request was
webdriver-bound, after the admission-filtered output the router releases the
originating request's identity, then calls `acquire_next`; a real next
request is appended to the yielded output flagged `dont_filter=True`, while
the WAITING sentinel adds nothing. -/
theorem c3_output_release_acquire_next (s s' : ManagerState) (r : WRequest)
    (result out : List Item)
    (h : processRequests s false result = (Except.ok out, s')) :
    process_spider_output s (Item.wreq r) result =
      (match (s'.release r.url).acquire_next with
       | (AcquireResult.admitted nxt, s2) =>
           (Except.ok (out ++ [Item.wreq { nxt with dontFilter := true }]), s2)
       | (AcquireResult.waiting, s2) => (Except.ok out, s2)) := by
  simp [process_spider_output, h]

/-- Witness for C3: the originating request "a" holds the lock, "b" waits;
after the output `[plain item]`, "b" is admitted and re-emitted with
`dont_filter`. -/
theorem c3_output_release_acquire_next_witness :
    process_spider_output mgrHeldA (Item.wreq reqA) [Item.other 1] =
      (match (mgrHeldA.release reqA.url).acquire_next with
       | (AcquireResult.admitted nxt, s2) =>
           (Except.ok ([Item.other 1] ++ [Item.wreq { nxt with dontFilter := true }]), s2)
       | (AcquireResult.waiting, s2) => (Except.ok [Item.other 1], s2)) :=
  c3_output_release_acquire_next mgrHeldA mgrHeldA reqA [Item.other 1]
    [Item.other 1] rfl

/-- C5: on an unhandled failure while processing the output of a
webdriver-bound request, the exception hook releases that request's identity,
calls `acquire_next`, and returns the literal single-element list holding the
`acquire_next` result. -/
theorem c5_exception_single_redispatch (s : ManagerState) (r : WRequest) :
    process_spider_exception s (Item.wreq r) =
      (some [((s.release r.url).acquire_next).1],
       ((s.release r.url).acquire_next).2) := rfl

/-- C1: for every hang-timeout setting and every outcome of `webdriver.get`,
the blocking download returns a `WebdriverResponse` (success referencing the
webdriver, or failure carrying the exception with the placeholder body)
instead of raising, and the trace of every path ends with the `finally`
release (`self._manager.release()`). -/
theorem c1_every_path_response (ht : Nat) (ms : ManagerState) (r : WRequest)
    (outcome : GetOutcome) :
    ((_download_request ht ms r outcome).1 =
      match outcome with
      | GetOutcome.success => WResponse.success r.url
      | GetOutcome.failure e =>
          WResponse.failure r.url { e with page_source := some blankBody }) ∧
    (∃ tr, (_download_request ht ms r outcome).2 = tr ++ [Event.releaseCall none]) := by
  cases outcome with
  | success =>
      cases ht with
      | zero =>
          exact ⟨rfl, ⟨[Event.log Level.debug, Event.acquireCall r.url,
            Event.webdriverGet r.url], rfl⟩⟩
      | succ n =>
          exact ⟨rfl, ⟨[Event.log Level.debug, Event.setAlarm (n + 1),
            Event.acquireCall r.url, Event.webdriverGet r.url,
            Event.log Level.debug, Event.log Level.debug, Event.setAlarm 0], rfl⟩⟩
  | failure e =>
      cases ht with
      | zero =>
          exact ⟨rfl, ⟨[Event.log Level.debug, Event.acquireCall r.url,
            Event.webdriverGet r.url, Event.log Level.error, Event.touchWebdriver,
            Event.log Level.debug], rfl⟩⟩
      | succ n =>
          exact ⟨rfl, ⟨[Event.log Level.debug, Event.setAlarm (n + 1),
            Event.acquireCall r.url, Event.webdriverGet r.url,
            Event.log Level.debug, Event.log Level.debug, Event.setAlarm 0,
            Event.log Level.error, Event.touchWebdriver, Event.log Level.debug],
            rfl⟩⟩

/-- C8: on an exception from the blocking call with a hang timeout
configured, the dispatcher disarms the timer (`signal.alarm(0)` after its two
debug logs), attaches the placeholder empty-document body to the exception,
logs the failure, touches the webdriver accessor once (eager lazy
recreation), releases in the `finally` clause, and returns a failure
response carrying the mutated exception. -/
theorem c8_failure_path (ht : Nat) (ms : ManagerState) (r : WRequest) (e : Exc)
    (h : ht ≠ 0) :
    _download_request ht ms r (GetOutcome.failure e) =
      (WResponse.failure r.url { e with page_source := some blankBody },
       [Event.log Level.debug, Event.setAlarm ht, Event.acquireCall r.url,
        Event.webdriverGet r.url, Event.log Level.debug, Event.log Level.debug,
        Event.setAlarm 0, Event.log Level.error, Event.touchWebdriver,
        Event.log Level.debug, Event.releaseCall none]) := by
  simp [_download_request, h]

/-- Witness for C8: a concrete failing fetch with hang timeout 5. -/
theorem c8_failure_path_witness :
    _download_request 5 mgrFree reqA (GetOutcome.failure excBoom) =
      (WResponse.failure reqA.url { excBoom with page_source := some blankBody },
       [Event.log Level.debug, Event.setAlarm 5, Event.acquireCall reqA.url,
        Event.webdriverGet reqA.url, Event.log Level.debug, Event.log Level.debug,
        Event.setAlarm 0, Event.log Level.error, Event.touchWebdriver,
        Event.log Level.debug, Event.releaseCall none]) :=
  c8_failure_path 5 mgrFree reqA excBoom (by decide)

/-- C9: with WEBDRIVER_BROWSER unset or for a non-webdriver request,
`download_request` hands the request unchanged to the fallback handler with
no alarm handler bound; and a falsy WEBDRIVER_HANG_TIMEOUT never binds the
alarm handler. -/
theorem c9_fallback_and_disable (st : Settings) (req : Item) :
    ((st.browser = none ∨ ∀ r, req ≠ Item.wreq r) →
        download_request st req = (Route.fallback req, false)) ∧
    (st.hangTimeout = 0 → (download_request st req).2 = false) := by
  constructor
  · rintro (hb | hr)
    · cases req <;> simp [download_request, hb]
    · cases req with
      | other t => rfl
      | wreq r => exact absurd rfl (hr r)
  · intro h0
    cases req with
    | other t => rfl
    | wreq r => cases hb : st.browser <;> simp [download_request, hb, h0]

/-- Witness for C9: disabled subsystem routes a plain request to fallback;
an enabled handler with hang timeout 0 binds no alarm handler. -/
theorem c9_fallback_and_disable_witness :
    download_request { browser := none, hangTimeout := 0 } (Item.other 7) =
      (Route.fallback (Item.other 7), false) ∧
    (download_request { browser := some "firefox", hangTimeout := 0 }
      (Item.wreq reqA)).2 = false :=
  ⟨(c9_fallback_and_disable { browser := none, hangTimeout := 0 }
      (Item.other 7)).1 (Or.inl rfl),
   (c9_fallback_and_disable { browser := some "firefox", hangTimeout := 0 }
      (Item.wreq reqA)).2 rfl⟩

/-- C10: the dispatcher never inspects its own `acquire` result — even when
`acquire` would answer WAITING, the blocking `webdriver.get` is attempted,
the whole behaviour is independent of the manager state, and the `finally`
release is invoked with no identity argument (never with one). -/
theorem c10_acquire_result_ignored (ht : Nat) (ms ms' : ManagerState)
    (r : WRequest) (outcome : GetOutcome)
    (h : (ms.acquire r).1 = AcquireResult.waiting) :
    _download_request ht ms r outcome = _download_request ht ms' r outcome ∧
    Event.webdriverGet r.url ∈ (_download_request ht ms r outcome).2 ∧
    Event.releaseCall none ∈ (_download_request ht ms r outcome).2 ∧
    ∀ id : String, Event.releaseCall (some id) ∉ (_download_request ht ms r outcome).2 := by
  cases outcome <;> cases ht <;> refine ⟨rfl, ?_, ?_, ?_⟩ <;>
    simp [_download_request]

/-- Witness for C10: the manager lock is held by "x", so acquiring "a" would
answer WAITING; the fetch is attempted all the same. -/
theorem c10_acquire_result_ignored_witness :
    (_download_request 0 mgrHeld reqA GetOutcome.success =
      _download_request 0 mgrFree reqA GetOutcome.success) ∧
    Event.webdriverGet reqA.url ∈ (_download_request 0 mgrHeld reqA GetOutcome.success).2 ∧
    Event.releaseCall none ∈ (_download_request 0 mgrHeld reqA GetOutcome.success).2 ∧
    ∀ id : String,
      Event.releaseCall (some id) ∉ (_download_request 0 mgrHeld reqA GetOutcome.success).2 :=
  c10_acquire_result_ignored 0 mgrHeld mgrFree reqA GetOutcome.success (by decide)

/-- C2, evaluated at the failing input (a fetch that outlives the armed
alarm): the SIGALRM callback SIGTERMs the driver process, sets the cached
`_webdriver` handle back to None, releases the lock — but logs the hang
message at `log.INFO`, not at warning level as the claim (and the code's own
comment) state. -/
theorem c2_alarm_handler_trace :
    alarm_handler = [Event.sigtermDriverProcess, Event.setWebdriverNone,
      Event.releaseCall none, Event.log Level.info] ∧
    Event.log Level.warning ∉ alarm_handler := by
  exact ⟨rfl, by decide⟩

end Scrapy
